import Mathlib

/-!
Shallow embedding of `gesture_controller.py` (class `EnhancedGestureController`)
from the hand-gesture-control repository, together with theorems checking the
specification's claims about it.

Modelling conventions:
* Python floats and timestamps are modelled as `ℚ`.  Every decimal literal of
  the source (0.05, 0.3, 0.8, ...) is exactly representable.
* `time.time()` is passed in explicitly as a `now : ℚ` argument; each call of
  a method that reads the clock receives one `now` value.
* Landmarks are the list of 21 `(x, y, z)` normalized coordinates that
  `main.py` passes to `process_frame`; list indexing `landmarks[i]` is
  modelled with `List.getD` (all claims concern frames carrying 21 points).
* `math.sqrt(d2) < 0.05` in `_detect_pinch` is embedded as `d2 < 0.0025`,
  which is equivalent for the nonnegative radicand.
* Calls into pyautogui / the volume interface (the ActionSink) are modelled
  by recording the requested `Effect` and by a `sinkOk : Bool` flag telling
  whether the call raises; a raising call aborts the surrounding `try` block
  exactly as in Python.  `PYAUTOGUI_AVAILABLE` is taken to be true.
* Python's `int()` float-to-int conversion truncates toward zero; it is
  embedded as `int_trunc`.
-/

/-- Keys / hotkey combinations sent through pyautogui. -/
inductive Key where
  | playpause | prevtrack | nexttrack | space | ctrlUp
  | winLeft | winRight | winUp | winDown | altF4 | altTab | winD | winTab
  | rightArrow | leftArrow | bKey | wKey | homeKey | endKey
  deriving DecidableEq, Repr

/-- One request issued to the external ActionSink (pyautogui / volume API). -/
inductive Effect where
  | press (k : Key)
  | hotkey (k : Key)
  | adjustVolume (change : ℚ)
  | moveTo (x y : Int)
  | click
  | rightClick
  | scroll (amount : Int)
  | mouseDown
  | mouseUp
  deriving DecidableEq, Repr

/-- `class ControlMode(Enum)`. -/
inductive ControlMode where
  | media | mouse | window | presentation
  deriving DecidableEq, Repr

/-- `class Gesture(Enum)`. -/
inductive Gesture where
  | fist | open_hand | peace | pointing | thumbs_up | pinch
  | rotate_left | rotate_right
  | swipe_left | swipe_right | swipe_up | swipe_down
  | palm_push | palm_pull
  | none
  deriving DecidableEq, Repr

/-- `self.finger_states`: [thumb, index, middle, ring, pinky]. -/
structure FingerStates where
  thumb : Bool
  index : Bool
  middle : Bool
  ring : Bool
  pinky : Bool
  deriving DecidableEq, Repr

/-- The mutable fields of `EnhancedGestureController` (the platform handles
`volume_control` / screen size queries are abstracted; screen size is kept as
the source's non-pyautogui fallback 1920x1080). -/
structure ControllerState where
  mode : ControlMode
  sensitivity : ℚ
  current_gesture : Gesture
  last_gesture : Gesture
  gesture_start_time : ℚ
  cooldown_time : ℚ
  last_action_time : ℚ
  last_rotation : Option ℚ
  rotation_threshold : ℚ
  rotation_accumulator : ℚ
  last_palm_x : Option ℚ
  last_palm_y : Option ℚ
  last_palm_z : Option ℚ
  swipe_threshold : ℚ
  depth_threshold : ℚ
  finger_states : FingerStates
  mouse_smoothing : ℚ
  mouse_anchor : Option (ℚ × ℚ)
  is_clicking : Bool
  is_dragging : Bool
  screen_w : ℚ
  screen_h : ℚ
  deriving DecidableEq, Repr

/-- Python `int(q)` on a float: truncation toward zero. -/
def int_trunc (q : ℚ) : Int := if 0 ≤ q then ⌊q⌋ else ⌈q⌉

/-- `__init__(self, mode=ControlMode.MEDIA, sensitivity=1.0)`.
`now` stands for the `time.time()` read into `gesture_start_time`.
Note the constructor stores `sensitivity` without clamping. -/
def init_controller (mode : ControlMode) (sensitivity : ℚ) (now : ℚ) :
    ControllerState :=
  { mode := mode
    sensitivity := sensitivity
    current_gesture := Gesture.none
    last_gesture := Gesture.none
    gesture_start_time := now
    cooldown_time := max 0.3 (0.8 / sensitivity)
    last_action_time := 0
    last_rotation := Option.none
    rotation_threshold := max 15 (25 / sensitivity)
    rotation_accumulator := 0
    last_palm_x := Option.none
    last_palm_y := Option.none
    last_palm_z := Option.none
    swipe_threshold := max 60 (100 / sensitivity)
    depth_threshold := 0.08 / sensitivity
    finger_states := ⟨false, false, false, false, false⟩
    mouse_smoothing := 0.3
    mouse_anchor := Option.none
    is_clicking := false
    is_dragging := false
    screen_w := 1920
    screen_h := 1080 }

/-- `set_sensitivity(self, sensitivity)`: clamp, then recompute all four
derived thresholds from the clamped value. -/
def set_sensitivity (s : ControllerState) (sensitivity : ℚ) : ControllerState :=
  let v := max 0.3 (min 3.0 sensitivity)
  { s with
    sensitivity := v
    cooldown_time := max 0.3 (0.8 / v)
    rotation_threshold := max 15 (25 / v)
    swipe_threshold := max 60 (100 / v)
    depth_threshold := 0.08 / v }

/-- `reset_state(self)`. -/
def reset_state (s : ControllerState) : ControllerState :=
  { s with
    last_palm_x := Option.none
    last_palm_y := Option.none
    last_palm_z := Option.none
    last_rotation := Option.none
    rotation_accumulator := 0
    mouse_anchor := Option.none
    is_clicking := false
    is_dragging := false }

/-- `set_mode(self, mode)`: store the mode, then `reset_state()`. -/
def set_mode (s : ControllerState) (mode : ControlMode) : ControllerState :=
  reset_state { s with mode := mode }

/-- `_detect_finger_states(self, landmarks)`. -/
def detect_finger_states (landmarks : List (ℚ × ℚ × ℚ)) : FingerStates :=
  let thumb_tip := landmarks.getD 4 (0, 0, 0)
  let thumb_base := landmarks.getD 2 (0, 0, 0)
  let ext (tip_idx base_idx : ℕ) : Bool :=
    let tip := landmarks.getD tip_idx (0, 0, 0)
    let base := landmarks.getD base_idx (0, 0, 0)
    decide (tip.2.1 < base.2.1 - 0.03)
  { thumb := decide (0.04 < |thumb_tip.1 - thumb_base.1|)
    index := ext 8 6
    middle := ext 12 10
    ring := ext 16 14
    pinky := ext 20 18 }

/-- `_detect_pinch(self, landmarks)`: `sqrt(dx^2+dy^2) < 0.05`, embedded as
the equivalent squared comparison. -/
def detect_pinch (landmarks : List (ℚ × ℚ × ℚ)) : Bool :=
  let thumb_tip := landmarks.getD 4 (0, 0, 0)
  let index_tip := landmarks.getD 8 (0, 0, 0)
  decide ((thumb_tip.1 - index_tip.1) ^ 2 + (thumb_tip.2.1 - index_tip.2.1) ^ 2
    < 0.0025)

/-- The shape-rule chain of `detect_gesture` (lines 185-197): the `if/elif`
cascade over pinch, finger combinations and openness. -/
def shape_gesture (fs : FingerStates) (pinched : Bool) (openness : ℚ) :
    Gesture :=
  if pinched then Gesture.pinch
  else if fs.index && !(fs.middle || fs.ring || fs.pinky) then Gesture.pointing
  else if fs.index && fs.middle && !(fs.ring || fs.pinky) then Gesture.peace
  else if fs.thumb && !(fs.index || fs.middle || fs.ring || fs.pinky) then
    Gesture.thumbs_up
  else if openness < 25 then Gesture.fist
  else if openness > 75 then Gesture.open_hand
  else Gesture.none

/-- Depth-gesture block of `detect_gesture` (lines 200-205). -/
def depth_override (last_palm_z : Option ℚ) (depth_threshold palm_z : ℚ)
    (g : Gesture) : Gesture :=
  match last_palm_z with
  | Option.some lz =>
    let z_diff := palm_z - lz
    if z_diff < -depth_threshold then Gesture.palm_push
    else if z_diff > depth_threshold then Gesture.palm_pull
    else g
  | Option.none => g

/-- The rotation-difference normalization of `detect_gesture`
(lines 209-213). -/
def rot_diff_norm (last_rotation rotation : ℚ) : ℚ :=
  let rot_diff := rotation - last_rotation
  if rot_diff > 180 then rot_diff - 360
  else if rot_diff < -180 then rot_diff + 360
  else rot_diff

/-- Rotation-gesture block of `detect_gesture` (lines 208-222); returns the
(possibly overridden) gesture and the new `rotation_accumulator`. -/
def rotation_override (last_rotation : Option ℚ)
    (rotation_accumulator rotation_threshold rotation : ℚ) (g : Gesture) :
    Gesture × ℚ :=
  match last_rotation with
  | Option.some lr =>
    let acc := rotation_accumulator + rot_diff_norm lr rotation
    if |acc| > rotation_threshold then
      ((if acc > 0 then Gesture.rotate_right else Gesture.rotate_left), 0)
    else (g, acc)
  | Option.none => (g, rotation_accumulator)

/-- Swipe-gesture block of `detect_gesture` (lines 225-234); returns the
(possibly overridden) gesture and the new X/Y baselines as mutated inside
this block. -/
def swipe_override (last_palm_x last_palm_y : Option ℚ)
    (swipe_threshold palm_x palm_y : ℚ) (g : Gesture) :
    Gesture × Option ℚ × Option ℚ :=
  match last_palm_x, last_palm_y with
  | Option.some lx, Option.some ly =>
    let x_diff := palm_x - lx
    let y_diff := palm_y - ly
    if |x_diff| > swipe_threshold ∧ |x_diff| > |y_diff| then
      ((if x_diff > 0 then Gesture.swipe_right else Gesture.swipe_left),
        Option.some palm_x, Option.some ly)
    else if |y_diff| > swipe_threshold ∧ |y_diff| > |x_diff| then
      ((if y_diff < 0 then Gesture.swipe_up else Gesture.swipe_down),
        Option.some lx, Option.some palm_y)
    else (g, Option.some lx, Option.some ly)
  | lx, ly => (g, lx, ly)

/-- Whether a gesture is one of the four swipes (the list on line 237). -/
def is_swipe : Gesture → Bool
  | Gesture.swipe_left => true
  | Gesture.swipe_right => true
  | Gesture.swipe_up => true
  | Gesture.swipe_down => true
  | _ => false

/-- Sticky-baseline update of `detect_gesture` (lines 237-241), applied after
the swipe block to the baselines it produced. -/
def update_tracking (g : Gesture) (lpx lpy : Option ℚ) (palm_x palm_y : ℚ) :
    Option ℚ × Option ℚ :=
  if is_swipe g then (lpx, lpy)
  else
    ((match lpx with
      | Option.none => Option.some palm_x
      | Option.some lx =>
        if |palm_x - lx| < 10 then Option.some palm_x else Option.some lx),
     (match lpy with
      | Option.none => Option.some palm_y
      | Option.some ly =>
        if |palm_y - ly| < 10 then Option.some palm_y else Option.some ly))

/-- `detect_gesture(self, openness, rotation, palm_x, palm_y, palm_z,
landmarks)`: returns the detected gesture and the mutated state. -/
def detect_gesture (s : ControllerState) (openness rotation palm_x palm_y
    palm_z : ℚ) (landmarks : List (ℚ × ℚ × ℚ)) : Gesture × ControllerState :=
  let fs := detect_finger_states landmarks
  let g1 := shape_gesture fs (detect_pinch landmarks) openness
  let g2 := depth_override s.last_palm_z s.depth_threshold palm_z g1
  let gr := rotation_override s.last_rotation s.rotation_accumulator
    s.rotation_threshold rotation g2
  let gs := swipe_override s.last_palm_x s.last_palm_y s.swipe_threshold
    palm_x palm_y gr.1
  let tr := update_tracking gs.1 gs.2.1 gs.2.2 palm_x palm_y
  (gs.1,
    { s with
      finger_states := fs
      rotation_accumulator := gr.2
      last_palm_x := tr.1
      last_palm_y := tr.2
      last_rotation := Option.some rotation
      last_palm_z := Option.some palm_z
      current_gesture := gs.1 })

/-- Gesture-to-effect table of `_media_control` (lines 271-310). -/
def media_table : Gesture → Option Effect
  | Gesture.fist => Option.some (Effect.press Key.playpause)
  | Gesture.open_hand => Option.some (Effect.press Key.playpause)
  | Gesture.rotate_left => Option.some (Effect.adjustVolume (-0.05))
  | Gesture.rotate_right => Option.some (Effect.adjustVolume 0.05)
  | Gesture.swipe_left => Option.some (Effect.press Key.prevtrack)
  | Gesture.swipe_right => Option.some (Effect.press Key.nexttrack)
  | Gesture.swipe_up => Option.some (Effect.adjustVolume 0.1)
  | Gesture.swipe_down => Option.some (Effect.adjustVolume (-0.1))
  | Gesture.peace => Option.some (Effect.press Key.space)
  | Gesture.thumbs_up => Option.some (Effect.hotkey Key.ctrlUp)
  | _ => Option.none

/-- Gesture-to-effect table of `_window_management` (lines 396-427). -/
def window_table : Gesture → Option Effect
  | Gesture.swipe_left => Option.some (Effect.hotkey Key.winLeft)
  | Gesture.swipe_right => Option.some (Effect.hotkey Key.winRight)
  | Gesture.swipe_up => Option.some (Effect.hotkey Key.winUp)
  | Gesture.swipe_down => Option.some (Effect.hotkey Key.winDown)
  | Gesture.fist => Option.some (Effect.hotkey Key.altF4)
  | Gesture.peace => Option.some (Effect.hotkey Key.altTab)
  | Gesture.open_hand => Option.some (Effect.hotkey Key.winD)
  | Gesture.thumbs_up => Option.some (Effect.hotkey Key.winTab)
  | _ => Option.none

/-- Gesture-to-effect table of `_presentation_control` (lines 448-471). -/
def presentation_table : Gesture → Option Effect
  | Gesture.swipe_right => Option.some (Effect.press Key.rightArrow)
  | Gesture.pointing => Option.some (Effect.press Key.rightArrow)
  | Gesture.swipe_left => Option.some (Effect.press Key.leftArrow)
  | Gesture.fist => Option.some (Effect.press Key.bKey)
  | Gesture.open_hand => Option.some (Effect.press Key.wKey)
  | Gesture.peace => Option.some (Effect.press Key.homeKey)
  | Gesture.thumbs_up => Option.some (Effect.press Key.endKey)
  | _ => Option.none

/-- Common skeleton of `_media_control` / `_window_management` /
`_presentation_control`: the cooldown gate, one table lookup, the `try`
block around the single sink call (`sinkOk = false` means the call raises;
then `action_taken` stays false and `last_action_time` is not written), and
the `if action_taken: last_action_time = now` epilogue.  Returns
`(action_taken, new state, sink calls issued)`. -/
def rate_gated_control (table : Gesture → Option Effect)
    (s : ControllerState) (now : ℚ) (g : Gesture) (sinkOk : Bool) :
    Bool × ControllerState × List Effect :=
  if now - s.last_action_time < s.cooldown_time then (false, s, [])
  else
    match table g with
    | Option.none => (false, s, [])
    | Option.some e =>
      if sinkOk then (true, { s with last_action_time := now }, [e])
      else (false, s, [e])

/-- `_media_control(self, gesture)`. -/
def media_control (s : ControllerState) (now : ℚ) (g : Gesture)
    (sinkOk : Bool) : Bool × ControllerState × List Effect :=
  rate_gated_control media_table s now g sinkOk

/-- `_window_management(self, gesture)`. -/
def window_management (s : ControllerState) (now : ℚ) (g : Gesture)
    (sinkOk : Bool) : Bool × ControllerState × List Effect :=
  rate_gated_control window_table s now g sinkOk

/-- `_presentation_control(self, gesture)`. -/
def presentation_control (s : ControllerState) (now : ℚ) (g : Gesture)
    (sinkOk : Bool) : Bool × ControllerState × List Effect :=
  rate_gated_control presentation_table s now g sinkOk

/-- Accumulator threaded through the stages of `_mouse_control`:
`(action_taken, state, sink calls so far)`.  `Except.error` carries the
result after an exception inside the `try` block (the remaining stages are
skipped and the accumulated `action_taken` is returned). -/
abbrev MouseStep := Except (Bool × ControllerState × List Effect)
  (Bool × ControllerState × List Effect)

/-- Cursor-move / pinch-click / else chain of `_mouse_control`
(lines 328-349).  `cursor` is the `pyautogui.position()` pair. -/
def mouse_stage_move_click (s : ControllerState) (g : Gesture)
    (palm_x palm_y : ℚ) (cursor : ℚ × ℚ) (sinkOk : Bool) : MouseStep :=
  if g = Gesture.open_hand ∨ g = Gesture.pointing then
    let target_x := int_trunc (palm_x * s.screen_w / 640)
    let target_y := int_trunc (palm_y * s.screen_h / 480)
    let new_x := int_trunc (cursor.1 + ((target_x : ℚ) - cursor.1)
      * (1 - s.mouse_smoothing))
    let new_y := int_trunc (cursor.2 + ((target_y : ℚ) - cursor.2)
      * (1 - s.mouse_smoothing))
    if sinkOk then Except.ok (true, s, [Effect.moveTo new_x new_y])
    else Except.error (false, s, [Effect.moveTo new_x new_y])
  else if g = Gesture.pinch then
    if !s.is_clicking then
      if sinkOk then
        Except.ok (true, { s with is_clicking := true }, [Effect.click])
      else Except.error (false, s, [Effect.click])
    else Except.ok (true, s, [])
  else Except.ok (false, { s with is_clicking := false }, [])

/-- Peace-sign right-click block of `_mouse_control` (lines 352-356). -/
def mouse_stage_peace (s : ControllerState) (g : Gesture) (sinkOk : Bool)
    (a : Bool) (es : List Effect) : MouseStep :=
  if g = Gesture.peace ∧ !s.is_clicking then
    if sinkOk then
      Except.ok (true, { s with is_clicking := true },
        es ++ [Effect.rightClick])
    else Except.error (a, s, es ++ [Effect.rightClick])
  else Except.ok (a, s, es)

/-- Fist-scroll block of `_mouse_control` (lines 359-364). -/
def mouse_stage_fist (s : ControllerState) (g : Gesture) (palm_y : ℚ)
    (sinkOk : Bool) (a : Bool) (es : List Effect) : MouseStep :=
  if g = Gesture.fist then
    match s.last_palm_y with
    | Option.some ly =>
      let scroll_amount := int_trunc ((palm_y - ly) * 2)
      if |scroll_amount| > 5 then
        if sinkOk then
          Except.ok (true, s, es ++ [Effect.scroll scroll_amount])
        else Except.error (a, s, es ++ [Effect.scroll scroll_amount])
      else Except.ok (a, s, es)
    | Option.none => Except.ok (a, s, es)
  else Except.ok (a, s, es)

/-- Thumbs-up drag block of `_mouse_control` (lines 367-377). -/
def mouse_stage_thumbs (s : ControllerState) (g : Gesture) (sinkOk : Bool)
    (a : Bool) (es : List Effect) : MouseStep :=
  if g = Gesture.thumbs_up then
    if !s.is_dragging then
      if sinkOk then
        Except.ok (true, { s with is_dragging := true },
          es ++ [Effect.mouseDown])
      else Except.error (a, s, es ++ [Effect.mouseDown])
    else Except.ok (true, s, es)
  else
    if s.is_dragging then
      if sinkOk then
        Except.ok (a, { s with is_dragging := false }, es ++ [Effect.mouseUp])
      else Except.error (a, s, es ++ [Effect.mouseUp])
    else Except.ok (a, s, es)

/-- `_mouse_control(self, gesture, palm_x, palm_y)`. -/
def mouse_control (s : ControllerState) (g : Gesture) (palm_x palm_y : ℚ)
    (cursor : ℚ × ℚ) (sinkOk : Bool) : Bool × ControllerState × List Effect :=
  let r : MouseStep := do
    let m1 ← mouse_stage_move_click s g palm_x palm_y cursor sinkOk
    let m2 ← mouse_stage_peace m1.2.1 g sinkOk m1.1 m1.2.2
    let m3 ← mouse_stage_fist m2.2.1 g palm_y sinkOk m2.1 m2.2.2
    mouse_stage_thumbs m3.2.1 g sinkOk m3.1 m3.2.2
  match r with
  | Except.ok m => m
  | Except.error m => m

/-- `execute_action(self, gesture, palm_x, palm_y)`. -/
def execute_action (s : ControllerState) (now : ℚ) (g : Gesture)
    (palm_x palm_y : ℚ) (cursor : ℚ × ℚ) (sinkOk : Bool) :
    Bool × ControllerState × List Effect :=
  match s.mode with
  | ControlMode.media => media_control s now g sinkOk
  | ControlMode.mouse => mouse_control s g palm_x palm_y cursor sinkOk
  | ControlMode.window => window_management s now g sinkOk
  | ControlMode.presentation => presentation_control s now g sinkOk

/-- The hold-timer restart of `process_frame` (lines 501-503):
`gesture_start_time = time.time(); last_gesture = gesture`. -/
def hold_restart (s1 : ControllerState) (now : ℚ) (g : Gesture) :
    ControllerState :=
  { s1 with gesture_start_time := now, last_gesture := g }

/-- `process_frame(self, openness, rotation, palm_x, palm_y, palm_z,
landmarks)`: classification, hold-time gate, dispatch.  Returns the gesture,
`action_taken`, the new state and the sink calls issued. -/
def process_frame (s : ControllerState) (now : ℚ)
    (openness rotation palm_x palm_y palm_z : ℚ)
    (landmarks : List (ℚ × ℚ × ℚ)) (cursor : ℚ × ℚ) (sinkOk : Bool) :
    Gesture × Bool × ControllerState × List Effect :=
  let d := detect_gesture s openness rotation palm_x palm_y palm_z landmarks
  let g := d.1
  let s1 := d.2
  let s2 :=
    if g ≠ Gesture.none ∧ g ≠ s1.last_gesture then hold_restart s1 now g
    else s1
  let hold_time : ℚ := if s2.mode = ControlMode.mouse then 0.2 else 0.3
  if g ≠ Gesture.none ∧ now - s2.gesture_start_time > hold_time then
    let r := execute_action s2 now g palm_x palm_y cursor sinkOk
    (g, r.1, r.2.1, r.2.2)
  else (g, false, s2, [])

/-- The modes whose dispatcher is cooldown-gated (`_media_control`,
`_window_management`, `_presentation_control`). -/
def rate_gated_mode : ControlMode → Bool
  | ControlMode.media => true
  | ControlMode.mouse => false
  | ControlMode.window => true
  | ControlMode.presentation => true

/-- The effect table a rate-gated mode dispatches through. -/
def mode_table : ControlMode → Gesture → Option Effect
  | ControlMode.media => media_table
  | ControlMode.mouse => fun _ => Option.none
  | ControlMode.window => window_table
  | ControlMode.presentation => presentation_table

/-- One `execute_action` call's inputs: the clock value, the gesture, the
palm coordinates, the cursor position and the sink outcome. -/
structure DispatchInput where
  now : ℚ
  g : Gesture
  palm_x : ℚ
  palm_y : ℚ
  cursor : ℚ × ℚ
  sinkOk : Bool

/-- Folding `execute_action` over a sequence of dispatch calls; returns the
per-call `(now, action_taken)` results and the final state. -/
def dispatch_seq (s : ControllerState) :
    List DispatchInput → List (ℚ × Bool) × ControllerState
  | [] => ([], s)
  | i :: rest =>
    let r := execute_action s i.now i.g i.palm_x i.palm_y i.cursor i.sinkOk
    let t := dispatch_seq r.2.1 rest
    ((i.now, r.1) :: t.1, t.2)

/-- The shape-rule chain exactly as the claim words it: Pointing requires
*exactly* the index finger extended (thumb included in the exclusion), Peace
requires index+middle and *no other* finger (thumb included).  Compared
against `shape_gesture`, which ignores the thumb in those two rules. -/
def spec_shape_gesture (fs : FingerStates) (pinched : Bool) (openness : ℚ) :
    Gesture :=
  if pinched then Gesture.pinch
  else if fs.index && !(fs.thumb || fs.middle || fs.ring || fs.pinky) then
    Gesture.pointing
  else if fs.index && fs.middle && !(fs.thumb || fs.ring || fs.pinky) then
    Gesture.peace
  else if fs.thumb && !(fs.index || fs.middle || fs.ring || fs.pinky) then
    Gesture.thumbs_up
  else if openness < 25 then Gesture.fist
  else if openness > 75 then Gesture.open_hand
  else Gesture.none

/-- All four derived thresholds agree with the stored sensitivity. -/
def thresholds_coherent (s : ControllerState) : Prop :=
  s.cooldown_time = max 0.3 (0.8 / s.sensitivity) ∧
  s.rotation_threshold = max 15 (25 / s.sensitivity) ∧
  s.swipe_threshold = max 60 (100 / s.sensitivity) ∧
  s.depth_threshold = 0.08 / s.sensitivity

/-- The fields of `ControllerState` that `_mouse_control` never writes. -/
def core_eq (s t : ControllerState) : Prop :=
  t.mode = s.mode ∧ t.gesture_start_time = s.gesture_start_time ∧
  t.last_gesture = s.last_gesture

/-- A 21-point hand: thumb extended (tip 4 far in x from base 2), index
extended (tip 8 above base 6), all other fingers curled, no pinch. -/
def ex_landmarks : List (ℚ × ℚ × ℚ) :=
  [(0.5, 0.5, 0), (0.5, 0.5, 0), (0, 0.5, 0), (0.5, 0.5, 0), (0.1, 0.5, 0),
   (0.5, 0.5, 0), (0.9, 0.3, 0), (0.5, 0.5, 0), (0.9, 0.2, 0),
   (0.5, 0.5, 0), (0.5, 0.5, 0), (0.5, 0.5, 0), (0.5, 0.5, 0),
   (0.5, 0.5, 0), (0.5, 0.5, 0), (0.5, 0.5, 0), (0.5, 0.5, 0),
   (0.5, 0.5, 0), (0.5, 0.5, 0), (0.5, 0.5, 0), (0.5, 0.5, 0)]

/-- A 21-point hand with no finger extended and no pinch; with
`openness = 10` it classifies as Fist, with `openness = 50` as None. -/
def fist_landmarks : List (ℚ × ℚ × ℚ) :=
  [(0.5, 0.5, 0), (0.5, 0.5, 0), (0.5, 0.5, 0), (0.5, 0.5, 0), (0.5, 0.5, 0),
   (0.5, 0.5, 0), (0.5, 0.5, 0), (0.5, 0.5, 0), (0.2, 0.9, 0),
   (0.5, 0.5, 0), (0.5, 0.5, 0), (0.5, 0.5, 0), (0.5, 0.5, 0),
   (0.5, 0.5, 0), (0.5, 0.5, 0), (0.5, 0.5, 0), (0.5, 0.5, 0),
   (0.5, 0.5, 0), (0.5, 0.5, 0), (0.5, 0.5, 0), (0.5, 0.5, 0)]

/-- Fresh controller in Media mode, sensitivity 1, constructed at time 0. -/
def base_state : ControllerState := init_controller ControlMode.media 1 0

/-- Concrete state used for the C3 witness: baselines armed at 0, thresholds
those of sensitivity 1 (rotation 25, swipe 100). -/
def c3_state : ControllerState :=
  { base_state with
    last_palm_x := Option.some 0
    last_palm_y := Option.some 0
    last_rotation := Option.some 0 }

/-- Concrete state used for the C6 counterexample: a controller that has
recognized a Fist (hold timer started at time 5). -/
def c6_state : ControllerState :=
  { base_state with last_gesture := Gesture.fist, gesture_start_time := 5 }

/-- C5 trace, frame 1: Fist recognized at t = 10 (hold timer starts). -/
def c5_s1 : ControllerState :=
  (process_frame base_state 10 10 0 320 240 0 fist_landmarks (0, 0)
    true).2.2.1

/-- C5 trace, frame 2: at t = 10.4 the same hand with `openness = 50`
classifies as None; the hold timer and `last_gesture` are left alone. -/
def c5_s2 : ControllerState :=
  (process_frame c5_s1 10.4 50 0 320 240 0 fist_landmarks (0, 0) true).2.2.1

/-- The shape-rule chain as the amended claim words it: the Pointing and
Peace rules ignore the thumb (matching the source's `fingers[1] and not
any(fingers[2:])` / `... not any(fingers[3:])`). -/
def spec_shape_gesture_amended (fs : FingerStates) (pinched : Bool)
    (openness : ℚ) : Gesture :=
  if pinched then Gesture.pinch
  else if fs.index ∧ ¬fs.middle ∧ ¬fs.ring ∧ ¬fs.pinky then Gesture.pointing
  else if fs.index ∧ fs.middle ∧ ¬fs.ring ∧ ¬fs.pinky then Gesture.peace
  else if fs.thumb ∧ ¬fs.index ∧ ¬fs.middle ∧ ¬fs.ring ∧ ¬fs.pinky then
    Gesture.thumbs_up
  else if openness < 25 then Gesture.fist
  else if openness > 75 then Gesture.open_hand
  else Gesture.none

/-- Concrete state used for the C4 witness: rotation baseline armed,
accumulator 0, rotation threshold 25 (sensitivity 1), no palm baselines. -/
def c4_state : ControllerState :=
  { base_state with last_rotation := Option.some 0 }

/-- `step_core s r`: the state carried by a `_mouse_control` stage result
(whether it returned or raised) agrees with `s` on the fields
`_mouse_control` never writes. -/
def step_core (s : ControllerState) : MouseStep → Prop
  | Except.ok m => core_eq s m.2.1
  | Except.error m => core_eq s m.2.1

/-- Fresh controller in Mouse mode, sensitivity 1, constructed at time 0. -/
def mouse_state : ControllerState := init_controller ControlMode.mouse 1 0

/-- Concrete state used for the C5 witness: a Fist already recognized with
hold timer started at time 0. -/
def c5_held_state : ControllerState :=
  { base_state with last_gesture := Gesture.fist, gesture_start_time := 0 }

theorem shape_gesture_not_rotate (fs : FingerStates) (pinched : Bool)
    (openness : ℚ) :
    shape_gesture fs pinched openness ≠ Gesture.rotate_left ∧
    shape_gesture fs pinched openness ≠ Gesture.rotate_right := by
  unfold shape_gesture
  split_ifs <;> simp

theorem depth_override_not_rotate (lz : Option ℚ) (dt pz : ℚ) (g : Gesture)
    (hg : g ≠ Gesture.rotate_left ∧ g ≠ Gesture.rotate_right) :
    depth_override lz dt pz g ≠ Gesture.rotate_left ∧
    depth_override lz dt pz g ≠ Gesture.rotate_right := by
  cases lz with
  | none => simpa [depth_override] using hg
  | some lz =>
    by_cases h1 : pz - lz < -dt
    · simp [depth_override, h1]
    · by_cases h2 : pz - lz > dt
      · simp [depth_override, h1, h2]
      · simpa [depth_override, h1, h2] using hg

theorem rotation_override_rotate_acc (lr : Option ℚ) (acc0 thr rot : ℚ)
    (g : Gesture) (hg : g ≠ Gesture.rotate_left ∧ g ≠ Gesture.rotate_right) :
    ((rotation_override lr acc0 thr rot g).1 = Gesture.rotate_left ∨
      (rotation_override lr acc0 thr rot g).1 = Gesture.rotate_right) →
    (rotation_override lr acc0 thr rot g).2 = 0 := by
  cases lr with
  | none =>
    intro h
    rcases h with h | h <;> simp [rotation_override] at h
    · exact absurd h hg.1
    · exact absurd h hg.2
  | some lr =>
    by_cases hthr : |acc0 + rot_diff_norm lr rot| > thr
    · intro _
      simp [rotation_override, hthr]
    · intro h
      rcases h with h | h <;> simp [rotation_override, hthr] at h
      · exact absurd h hg.1
      · exact absurd h hg.2

theorem swipe_override_cases (lx ly : Option ℚ) (thr px py : ℚ)
    (g : Gesture) :
    (swipe_override lx ly thr px py g).1 = g ∨
      is_swipe (swipe_override lx ly thr px py g).1 = true := by
  cases lx with
  | none => left; rfl
  | some lx =>
    cases ly with
    | none => left; rfl
    | some ly =>
      by_cases h1 : |px - lx| > thr ∧ |px - lx| > |py - ly|
      · right
        by_cases hx : px - lx > 0 <;> simp [swipe_override, h1, hx, is_swipe]
      · by_cases h2 : |py - ly| > thr ∧ |py - ly| > |px - lx|
        · right
          by_cases hy : py - ly < 0 <;>
            simp [swipe_override, h1, h2, hy, is_swipe]
        · left
          simp [swipe_override, h1, h2]

theorem is_swipe_ne_rotate (g : Gesture) (h : is_swipe g = true) :
    g ≠ Gesture.rotate_left ∧ g ≠ Gesture.rotate_right := by
  cases g <;> simp_all [is_swipe]

/-- C2 (counterexample): on a hand with thumb AND index extended (no pinch,
other fingers curled, openness 50) the source's shape stage yields Pointing,
while the claim's wording ("exactly the index finger is extended", "no other
fingers") yields None — so the claim as stated is false on the code. -/
theorem C2_counterexample :
    shape_gesture (detect_finger_states ex_landmarks)
      (detect_pinch ex_landmarks) 50 = Gesture.pointing ∧
    spec_shape_gesture (detect_finger_states ex_landmarks)
      (detect_pinch ex_landmarks) 50 = Gesture.none ∧
    Gesture.pointing ≠ Gesture.none ∧
    (detect_gesture base_state 50 0 320 240 0 ex_landmarks).1 =
      Gesture.pointing := by
  refine ⟨?_, ?_, by decide, ?_⟩
  · norm_num [shape_gesture, detect_finger_states, detect_pinch,
      ex_landmarks]
  · norm_num [spec_shape_gesture, detect_finger_states, detect_pinch,
      ex_landmarks, abs_of_nonneg]
  · norm_num [detect_gesture, base_state, init_controller, shape_gesture,
      detect_finger_states, detect_pinch, ex_landmarks, depth_override,
      rotation_override, swipe_override]

/-- C2 (amended): the shape stage is the first-match cascade
pinch → Pointing → Peace → ThumbsUp → Fist → OpenHand → None, where the
Pointing rule requires the index extended and none of middle/ring/pinky
(thumb ignored), and the Peace rule requires index+middle extended and
neither ring nor pinky (thumb ignored). -/
theorem C2_shape_first_match (fs : FingerStates) (pinched : Bool)
    (openness : ℚ) :
    shape_gesture fs pinched openness =
      spec_shape_gesture_amended fs pinched openness := by
  obtain ⟨t, i, mi, r, p⟩ := fs
  cases pinched <;> cases t <;> cases i <;> cases mi <;> cases r <;>
    cases p <;> simp [shape_gesture, spec_shape_gesture_amended]

/-- C3: a frame that crosses both the rotation threshold and a swipe
threshold (with axis dominance) classifies as a swipe, never as a rotate:
the swipe override is evaluated last. -/
theorem C3_swipe_overrides_rotation (s : ControllerState)
    (openness rotation palm_x palm_y palm_z : ℚ)
    (landmarks : List (ℚ × ℚ × ℚ)) (lx ly lr : ℚ)
    (hx : s.last_palm_x = Option.some lx)
    (hy : s.last_palm_y = Option.some ly)
    (_hr : s.last_rotation = Option.some lr)
    (_hrot : |s.rotation_accumulator + rot_diff_norm lr rotation| >
      s.rotation_threshold)
    (hsw : (|palm_x - lx| > s.swipe_threshold ∧
        |palm_x - lx| > |palm_y - ly|) ∨
      (|palm_y - ly| > s.swipe_threshold ∧
        |palm_y - ly| > |palm_x - lx|)) :
    is_swipe (detect_gesture s openness rotation palm_x palm_y palm_z
      landmarks).1 = true ∧
    (detect_gesture s openness rotation palm_x palm_y palm_z
      landmarks).1 ≠ Gesture.rotate_left ∧
    (detect_gesture s openness rotation palm_x palm_y palm_z
      landmarks).1 ≠ Gesture.rotate_right := by
  have hs : is_swipe (detect_gesture s openness rotation palm_x palm_y
      palm_z landmarks).1 = true := by
    simp only [detect_gesture, hx, hy]
    rcases hsw with ⟨h1, h2⟩ | ⟨h1, h2⟩
    · by_cases hxp : palm_x - lx > 0 <;>
        simp [swipe_override, h1, h2, hxp, is_swipe]
    · have hne : ¬(|palm_x - lx| > s.swipe_threshold ∧
          |palm_x - lx| > |palm_y - ly|) := by
        rintro ⟨-, hcon⟩
        linarith
      by_cases hyp : palm_y - ly < 0 <;>
        simp [swipe_override, hne, h1, h2, hyp, is_swipe]
  exact ⟨hs, (is_swipe_ne_rotate _ hs).1, (is_swipe_ne_rotate _ hs).2⟩

/-- C3 witness: baselines at 0, sensitivity 1 (rotation threshold 25, swipe
threshold 100); rotation 30 crosses the rotation threshold and palm_x = 200
crosses the swipe threshold with x dominance; the frame classifies as a
swipe. -/
theorem C3_swipe_overrides_rotation_witness :
    is_swipe (detect_gesture c3_state 50 30 200 0 0 fist_landmarks).1 =
      true ∧
    (detect_gesture c3_state 50 30 200 0 0 fist_landmarks).1 ≠
      Gesture.rotate_left ∧
    (detect_gesture c3_state 50 30 200 0 0 fist_landmarks).1 ≠
      Gesture.rotate_right :=
  C3_swipe_overrides_rotation c3_state 50 30 200 0 0 fist_landmarks 0 0 0
    rfl rfl rfl
    (by norm_num [c3_state, base_state, init_controller, rot_diff_norm])
    (Or.inl (by norm_num [c3_state, base_state, init_controller]))

/-- C4: whenever `detect_gesture` returns a Rotate gesture, the
`rotation_accumulator` of the post-state is exactly 0. -/
theorem C4_rotate_resets_accumulator (s : ControllerState)
    (openness rotation palm_x palm_y palm_z : ℚ)
    (landmarks : List (ℚ × ℚ × ℚ))
    (h : (detect_gesture s openness rotation palm_x palm_y palm_z
        landmarks).1 = Gesture.rotate_left ∨
      (detect_gesture s openness rotation palm_x palm_y palm_z
        landmarks).1 = Gesture.rotate_right) :
    (detect_gesture s openness rotation palm_x palm_y palm_z
      landmarks).2.rotation_accumulator = 0 := by
  have hshape := shape_gesture_not_rotate (detect_finger_states landmarks)
    (detect_pinch landmarks) openness
  have hdepth := depth_override_not_rotate s.last_palm_z s.depth_threshold
    palm_z _ hshape
  simp only [detect_gesture] at h ⊢
  rcases swipe_override_cases s.last_palm_x s.last_palm_y s.swipe_threshold
      palm_x palm_y (rotation_override s.last_rotation
      s.rotation_accumulator s.rotation_threshold rotation
      (depth_override s.last_palm_z s.depth_threshold palm_z
      (shape_gesture (detect_finger_states landmarks)
      (detect_pinch landmarks) openness))).1 with hc | hc
  · rw [hc] at h
    exact rotation_override_rotate_acc _ _ _ _ _ hdepth h
  · have hnr := is_swipe_ne_rotate _ hc
    rcases h with h | h
    · exact absurd h hnr.1
    · exact absurd h hnr.2

/-- C4 witness: rotation baseline 0, accumulator 0, threshold 25; a frame
at rotation 30 emits RotateRight and the post-state accumulator is 0. -/
theorem C4_rotate_resets_accumulator_witness :
    (detect_gesture c4_state 50 30 320 240 0
      fist_landmarks).2.rotation_accumulator = 0 :=
  C4_rotate_resets_accumulator c4_state 50 30 320 240 0 fist_landmarks
    (Or.inr (by norm_num [detect_gesture, c4_state, base_state,
      init_controller, shape_gesture, detect_finger_states, detect_pinch,
      fist_landmarks, depth_override, rotation_override, rot_diff_norm,
      swipe_override]))

/-- C6 (counterexample): `reset_state` (and hence `set_mode`) does not clear
`last_gesture` or `gesture_start_time`: on a state whose last gesture is
Fist with hold timer started at t = 5, both survive the reset. -/
theorem C6_counterexample :
    (reset_state c6_state).last_gesture = Gesture.fist ∧
    Gesture.fist ≠ Gesture.none ∧
    (reset_state c6_state).gesture_start_time = 5 ∧
    (set_mode c6_state ControlMode.window).last_gesture = Gesture.fist := by
  refine ⟨by decide, by decide, by decide, by decide⟩

/-- C6 (amended): `reset_state` clears the position/rotation/depth
baselines, the rotation accumulator, the mouse anchor and the click/drag
flags, but leaves `last_gesture` and `gesture_start_time` (and everything
else) unchanged; `set_mode` stores the new mode and performs exactly this
reset. -/
theorem C6_reset_clears_tracking (s : ControllerState) (m : ControlMode) :
    ((reset_state s).last_palm_x = Option.none ∧
     (reset_state s).last_palm_y = Option.none ∧
     (reset_state s).last_palm_z = Option.none ∧
     (reset_state s).last_rotation = Option.none ∧
     (reset_state s).rotation_accumulator = 0 ∧
     (reset_state s).mouse_anchor = Option.none ∧
     (reset_state s).is_clicking = false ∧
     (reset_state s).is_dragging = false) ∧
    ((reset_state s).last_gesture = s.last_gesture ∧
     (reset_state s).gesture_start_time = s.gesture_start_time) ∧
    (set_mode s m = reset_state { s with mode := m } ∧
     (set_mode s m).mode = m ∧
     (set_mode s m).last_gesture = s.last_gesture ∧
     (set_mode s m).gesture_start_time = s.gesture_start_time) := by
  exact ⟨⟨rfl, rfl, rfl, rfl, rfl, rfl, rfl, rfl⟩, ⟨rfl, rfl⟩,
    rfl, rfl, rfl, rfl⟩

/-- C7 (counterexample): the constructor stores its sensitivity argument
without clamping: built with sensitivity 0.1, the stored value is 0.1,
below the claimed lower bound 0.3. -/
theorem C7_counterexample :
    (init_controller ControlMode.media 0.1 0).sensitivity = 0.1 ∧
    ¬((0.3 : ℚ) ≤ (init_controller ControlMode.media 0.1 0).sensitivity) := by
  refine ⟨rfl, by norm_num [init_controller]⟩

/-- C7 (amended): `set_sensitivity` clamps the stored sensitivity into
[0.3, 3.0] and recomputes all four thresholds from that single stored
value; the constructor stores its argument unclamped but likewise derives
all four thresholds from the single stored value (for any nonzero argument;
at 0 the Python constructor raises ZeroDivisionError). -/
theorem C7_sensitivity_clamp :
    (∀ (s : ControllerState) (v : ℚ),
      0.3 ≤ (set_sensitivity s v).sensitivity ∧
      (set_sensitivity s v).sensitivity ≤ 3 ∧
      thresholds_coherent (set_sensitivity s v)) ∧
    (∀ (m : ControlMode) (v now : ℚ), v ≠ 0 →
      thresholds_coherent (init_controller m v now)) := by
  constructor
  · intro s v
    refine ⟨le_max_left _ _,
      max_le (by norm_num) (le_trans (min_le_left _ _) (by norm_num)),
      rfl, rfl, rfl, rfl⟩
  · intro m v now hv
    exact ⟨rfl, rfl, rfl, rfl⟩

/-- C7 witness: `set_sensitivity` at 5 clamps into range with coherent
thresholds; the constructor at sensitivity 1 has coherent thresholds. -/
theorem C7_sensitivity_clamp_witness :
    (0.3 ≤ (set_sensitivity base_state 5).sensitivity ∧
      (set_sensitivity base_state 5).sensitivity ≤ 3 ∧
      thresholds_coherent (set_sensitivity base_state 5)) ∧
    thresholds_coherent (init_controller ControlMode.media 1 0) :=
  ⟨C7_sensitivity_clamp.1 base_state 5,
   C7_sensitivity_clamp.2 ControlMode.media 1 0 (by norm_num)⟩

/-- C9 (counterexample): a raw angular difference of exactly -180 (previous
rotation 180, current 0) is left at -180 by the normalization, so the
result is not in the half-open interval (-180, 180]. -/
theorem C9_counterexample :
    rot_diff_norm 180 0 = -180 ∧ ¬(-180 < rot_diff_norm 180 0) := by
  constructor <;> norm_num [rot_diff_norm]

/-- C9 (amended): for previous and current angles in [0, 360), the
normalized delta lies in the closed interval [-180, 180] and is congruent
to the raw difference mod 360 (a raw difference of exactly -180 stays
-180; exactly +180 stays +180). -/
theorem C9_rot_diff_norm_range (prev cur : ℚ) (hp0 : 0 ≤ prev)
    (hp : prev < 360) (hc0 : 0 ≤ cur) (hc : cur < 360) :
    -180 ≤ rot_diff_norm prev cur ∧ rot_diff_norm prev cur ≤ 180 ∧
      ∃ k : ℤ, rot_diff_norm prev cur = cur - prev + 360 * k := by
  simp only [rot_diff_norm]
  split_ifs with h1 h2
  · exact ⟨by linarith, by linarith, ⟨-1, by push_cast; ring⟩⟩
  · exact ⟨by linarith, by linarith, ⟨1, by push_cast; ring⟩⟩
  · exact ⟨by linarith, by linarith, ⟨0, by push_cast; ring⟩⟩

/-- C9 witness: previous 90, current 180: the normalized delta 90 is in
range and congruent to the raw difference. -/
theorem C9_rot_diff_norm_range_witness :
    -180 ≤ rot_diff_norm 90 180 ∧ rot_diff_norm 90 180 ≤ 180 ∧
      ∃ k : ℤ, rot_diff_norm 90 180 = 180 - 90 + 360 * k :=
  C9_rot_diff_norm_range 90 180 (by norm_num) (by norm_num) (by norm_num)
    (by norm_num)

theorem rate_gated_effects_gate (table : Gesture → Option Effect)
    (s : ControllerState) (now : ℚ) (g : Gesture) (sinkOk : Bool)
    (h : (rate_gated_control table s now g sinkOk).2.2 ≠ []) :
    s.cooldown_time ≤ now - s.last_action_time := by
  by_cases hc : now - s.last_action_time < s.cooldown_time
  · simp [rate_gated_control, hc] at h
  · linarith [not_lt.mp hc]

theorem rate_gated_success (table : Gesture → Option Effect)
    (s : ControllerState) (now : ℚ) (g : Gesture) (sinkOk : Bool)
    (h : (rate_gated_control table s now g sinkOk).1 = true) :
    (rate_gated_control table s now g sinkOk).2.1.last_action_time = now ∧
    s.cooldown_time ≤ now - s.last_action_time := by
  by_cases hc : now - s.last_action_time < s.cooldown_time
  · simp [rate_gated_control, hc] at h
  · cases ht : table g with
    | none => simp [rate_gated_control, hc, ht] at h
    | some e =>
      cases sinkOk with
      | false => simp [rate_gated_control, hc, ht] at h
      | true =>
        refine ⟨by simp [rate_gated_control, hc, ht], ?_⟩
        linarith [not_lt.mp hc]

theorem rate_gated_fail (table : Gesture → Option Effect)
    (s : ControllerState) (now : ℚ) (g : Gesture) (sinkOk : Bool)
    (h : (rate_gated_control table s now g sinkOk).1 = false) :
    (rate_gated_control table s now g sinkOk).2.1 = s := by
  by_cases hc : now - s.last_action_time < s.cooldown_time
  · simp [rate_gated_control, hc]
  · cases ht : table g with
    | none => simp [rate_gated_control, hc, ht]
    | some e =>
      cases sinkOk with
      | false => simp [rate_gated_control, hc, ht]
      | true => simp [rate_gated_control, hc, ht] at h

theorem rate_gated_preserves (table : Gesture → Option Effect)
    (s : ControllerState) (now : ℚ) (g : Gesture) (sinkOk : Bool) :
    (rate_gated_control table s now g sinkOk).2.1.cooldown_time =
      s.cooldown_time ∧
    (rate_gated_control table s now g sinkOk).2.1.mode = s.mode := by
  by_cases hc : now - s.last_action_time < s.cooldown_time
  · simp [rate_gated_control, hc]
  · cases ht : table g with
    | none => simp [rate_gated_control, hc, ht]
    | some e => cases sinkOk <;> simp [rate_gated_control, hc, ht]

theorem execute_action_rate_gated (s : ControllerState) (now : ℚ)
    (g : Gesture) (palm_x palm_y : ℚ) (cursor : ℚ × ℚ) (sinkOk : Bool)
    (hm : rate_gated_mode s.mode = true) :
    execute_action s now g palm_x palm_y cursor sinkOk =
      rate_gated_control (mode_table s.mode) s now g sinkOk := by
  cases hmode : s.mode with
  | media => simp [execute_action, hmode, media_control, mode_table]
  | mouse => rw [hmode] at hm; simp [rate_gated_mode] at hm
  | window => simp [execute_action, hmode, window_management, mode_table]
  | presentation =>
    simp [execute_action, hmode, presentation_control, mode_table]

theorem dispatch_seq_success_lb (inputs : List DispatchInput) :
    ∀ s : ControllerState, rate_gated_mode s.mode = true →
      0 ≤ s.cooldown_time →
      ∀ r ∈ (dispatch_seq s inputs).1, r.2 = true →
        s.last_action_time + s.cooldown_time ≤ r.1 := by
  induction inputs with
  | nil => intro s _ _ r hr; simp [dispatch_seq] at hr
  | cons i rest ih =>
    intro s hm hcd r hr hsucc
    have heq := execute_action_rate_gated s i.now i.g i.palm_x i.palm_y
      i.cursor i.sinkOk hm
    simp only [dispatch_seq, heq, List.mem_cons] at hr
    set d := rate_gated_control (mode_table s.mode) s i.now i.g i.sinkOk
      with hd
    rcases hr with hr | hr
    · subst hr
      simp only at hsucc
      have := rate_gated_success _ _ _ _ _ hsucc
      linarith [this.2]
    · have hm2 : rate_gated_mode d.2.1.mode = true := by
        rw [(rate_gated_preserves _ s i.now i.g i.sinkOk).2]
        exact hm
      have hcd2 : 0 ≤ d.2.1.cooldown_time := by
        rw [(rate_gated_preserves _ s i.now i.g i.sinkOk).1]
        exact hcd
      have hrec := ih d.2.1 hm2 hcd2 r hr hsucc
      rw [(rate_gated_preserves (mode_table s.mode) s i.now i.g
        i.sinkOk).1] at hrec
      cases ha : d.1 with
      | false =>
        rw [rate_gated_fail _ _ _ _ _ ha] at hrec
        exact hrec
      | true =>
        have hsucc1 := rate_gated_success _ _ _ _ _ ha
        rw [hsucc1.1] at hrec
        have h2 := hsucc1.2
        linarith

theorem dispatch_seq_cooldown_spacing (inputs : List DispatchInput) :
    ∀ s : ControllerState, rate_gated_mode s.mode = true →
      0 ≤ s.cooldown_time →
      List.Pairwise (fun r r' : ℚ × Bool => r.2 = true → r'.2 = true →
        s.cooldown_time ≤ r'.1 - r.1) (dispatch_seq s inputs).1 := by
  induction inputs with
  | nil => intro s _ _; simp [dispatch_seq]
  | cons i rest ih =>
    intro s hm hcd
    have heq := execute_action_rate_gated s i.now i.g i.palm_x i.palm_y
      i.cursor i.sinkOk hm
    simp only [dispatch_seq, heq, List.pairwise_cons]
    set d := rate_gated_control (mode_table s.mode) s i.now i.g i.sinkOk
      with hd
    have hpres := rate_gated_preserves (mode_table s.mode) s i.now i.g
      i.sinkOk
    have hm2 : rate_gated_mode d.2.1.mode = true := by rw [hpres.2]; exact hm
    have hcd2 : 0 ≤ d.2.1.cooldown_time := by rw [hpres.1]; exact hcd
    constructor
    · intro r hr hhead hsucc
      have hsucc1 := rate_gated_success (mode_table s.mode) s i.now i.g
        i.sinkOk hhead
      have hlb := dispatch_seq_success_lb rest d.2.1 hm2 hcd2 r hr hsucc
      rw [hpres.1, hsucc1.1] at hlb
      linarith
    · have htail := ih d.2.1 hm2 hcd2
      rw [hpres.1] at htail
      exact htail

/-- C1: in the rate-gated modes (Media, Window, Presentation) a dispatch
call issues an effect only when `now - last_action_time ≥ cooldown_time`;
a successful dispatch sets `last_action_time := now`; consequently, over
any sequence of dispatch calls, any two successful dispatches are at least
one cooldown apart. -/
theorem C1_rate_gated_cooldown (s : ControllerState)
    (hm : rate_gated_mode s.mode = true) :
    (∀ (now : ℚ) (g : Gesture) (palm_x palm_y : ℚ) (cursor : ℚ × ℚ)
      (sinkOk : Bool),
      ((execute_action s now g palm_x palm_y cursor sinkOk).2.2 ≠ [] →
        s.cooldown_time ≤ now - s.last_action_time) ∧
      ((execute_action s now g palm_x palm_y cursor sinkOk).1 = true →
        (execute_action s now g palm_x palm_y cursor
          sinkOk).2.1.last_action_time = now)) ∧
    (0 ≤ s.cooldown_time → ∀ inputs : List DispatchInput,
      List.Pairwise (fun r r' : ℚ × Bool => r.2 = true → r'.2 = true →
        s.cooldown_time ≤ r'.1 - r.1) (dispatch_seq s inputs).1) := by
  constructor
  · intro now g palm_x palm_y cursor sinkOk
    rw [execute_action_rate_gated s now g palm_x palm_y cursor sinkOk hm]
    exact ⟨rate_gated_effects_gate _ _ _ _ _,
      fun h => (rate_gated_success _ _ _ _ _ h).1⟩
  · intro hcd inputs
    exact dispatch_seq_cooldown_spacing inputs s hm hcd

/-- C1 witness: fresh Media controller (cooldown 0.8); a two-call dispatch
sequence at times 1 and 5 satisfies the pairwise cooldown spacing. -/
theorem C1_rate_gated_cooldown_witness :
    List.Pairwise (fun r r' : ℚ × Bool => r.2 = true → r'.2 = true →
      base_state.cooldown_time ≤ r'.1 - r.1)
      (dispatch_seq base_state
        [⟨1, Gesture.fist, 0, 0, (0, 0), true⟩,
         ⟨5, Gesture.fist, 0, 0, (0, 0), true⟩]).1 :=
  (C1_rate_gated_cooldown base_state (by decide)).2
    (by norm_num [base_state, init_controller]) _

/-- C8: in a rate-gated mode, when the ActionSink call raises (modelled by
`sinkOk = false`), dispatch returns `action_taken = false` and leaves the
state — in particular `last_action_time` — unchanged, so the failed
attempt does not consume the cooldown window. -/
theorem C8_sink_failure_no_cooldown_consumed (s : ControllerState)
    (now : ℚ) (g : Gesture) (palm_x palm_y : ℚ) (cursor : ℚ × ℚ)
    (hm : rate_gated_mode s.mode = true) :
    (execute_action s now g palm_x palm_y cursor false).1 = false ∧
    (execute_action s now g palm_x palm_y cursor
      false).2.1.last_action_time = s.last_action_time ∧
    (execute_action s now g palm_x palm_y cursor false).2.1 = s := by
  rw [execute_action_rate_gated s now g palm_x palm_y cursor false hm]
  by_cases hc : now - s.last_action_time < s.cooldown_time
  · simp [rate_gated_control, hc]
  · cases ht : mode_table s.mode g with
    | none => simp [rate_gated_control, hc, ht]
    | some e => simp [rate_gated_control, hc, ht]

/-- C8 witness: fresh Media controller, Fist at time 1 with a raising sink:
no action, state unchanged. -/
theorem C8_sink_failure_witness :
    (execute_action base_state 1 Gesture.fist 0 0 (0, 0) false).1 = false ∧
    (execute_action base_state 1 Gesture.fist 0 0 (0, 0)
      false).2.1.last_action_time = base_state.last_action_time ∧
    (execute_action base_state 1 Gesture.fist 0 0 (0, 0) false).2.1 =
      base_state :=
  C8_sink_failure_no_cooldown_consumed base_state 1 Gesture.fist 0 0 (0, 0)
    (by decide)

/-- C10: in Mouse mode, every dispatch call with gesture Peace invokes
rightClick: the non-Pinch branch has just cleared `is_clicking`, so the
Peace check always passes — a sustained Peace fires one rightClick per
frame, not once per onset. -/
theorem C10_peace_right_click_every_call (s : ControllerState) (now : ℚ)
    (palm_x palm_y : ℚ) (cursor : ℚ × ℚ) (sinkOk : Bool)
    (hm : s.mode = ControlMode.mouse) :
    Effect.rightClick ∈
      (execute_action s now Gesture.peace palm_x palm_y cursor
        sinkOk).2.2 := by
  cases hd : s.is_dragging <;> cases sinkOk <;>
    simp [execute_action, hm, mouse_control, mouse_stage_move_click,
      mouse_stage_peace, mouse_stage_fist, mouse_stage_thumbs, hd,
      Bind.bind, Except.bind]

/-- C10 witness: fresh Mouse controller, Peace gesture: rightClick is among
the issued sink calls. -/
theorem C10_peace_right_click_witness :
    Effect.rightClick ∈
      (execute_action mouse_state 1 Gesture.peace 0 0 (0, 0) true).2.2 :=
  C10_peace_right_click_every_call mouse_state 1 0 0 (0, 0) true rfl


theorem core_eq_trans (a b c : ControllerState) (h1 : core_eq a b)
    (h2 : core_eq b c) : core_eq a c :=
  ⟨h2.1.trans h1.1, h2.2.1.trans h1.2.1, h2.2.2.trans h1.2.2⟩

theorem step_core_of_core_eq (s t : ControllerState) (r : MouseStep)
    (h : core_eq s t) (hr : step_core t r) : step_core s r := by
  cases r with
  | ok m => exact core_eq_trans s t m.2.1 h hr
  | error m => exact core_eq_trans s t m.2.1 h hr

theorem step_core_bind (s : ControllerState) (st : MouseStep)
    (f : Bool × ControllerState × List Effect → MouseStep)
    (h1 : step_core s st)
    (h2 : ∀ m, st = Except.ok m → step_core m.2.1 (f m)) :
    step_core s (st >>= f) := by
  cases hst : st with
  | error m =>
    rw [hst] at h1
    simpa [Bind.bind, Except.bind] using h1
  | ok m =>
    rw [hst] at h1
    simpa [Bind.bind, Except.bind] using
      step_core_of_core_eq s m.2.1 (f m) h1 (h2 m hst)

theorem mouse_stage_move_click_core (s : ControllerState) (g : Gesture)
    (px py : ℚ) (cur : ℚ × ℚ) (ok : Bool) :
    step_core s (mouse_stage_move_click s g px py cur ok) := by
  unfold mouse_stage_move_click
  split_ifs <;> simp [step_core, core_eq]

theorem mouse_stage_peace_core (s : ControllerState) (g : Gesture)
    (ok a : Bool) (es : List Effect) :
    step_core s (mouse_stage_peace s g ok a es) := by
  unfold mouse_stage_peace
  split_ifs <;> simp [step_core, core_eq]

theorem mouse_stage_fist_core (s : ControllerState) (g : Gesture)
    (py : ℚ) (ok a : Bool) (es : List Effect) :
    step_core s (mouse_stage_fist s g py ok a es) := by
  unfold mouse_stage_fist
  cases s.last_palm_y <;> split_ifs <;> (repeat' split) <;>
    simp_all [step_core, core_eq] <;> split_ifs <;>
    simp [step_core, core_eq]

theorem mouse_stage_thumbs_core (s : ControllerState) (g : Gesture)
    (ok a : Bool) (es : List Effect) :
    step_core s (mouse_stage_thumbs s g ok a es) := by
  unfold mouse_stage_thumbs
  split_ifs <;> simp [step_core, core_eq]

theorem run_mouse_core (s : ControllerState) (r : MouseStep)
    (h : step_core s r) :
    core_eq s (match r with
      | Except.ok m => m
      | Except.error m => m).2.1 := by
  cases r with
  | ok m => exact h
  | error m => exact h

theorem mouse_control_core (s : ControllerState) (g : Gesture)
    (px py : ℚ) (cur : ℚ × ℚ) (ok : Bool) :
    core_eq s (mouse_control s g px py cur ok).2.1 := by
  unfold mouse_control
  apply run_mouse_core
  apply step_core_bind
  · exact mouse_stage_move_click_core s g px py cur ok
  · intro m1 _
    apply step_core_bind
    · exact mouse_stage_peace_core m1.2.1 g ok m1.1 m1.2.2
    · intro m2 _
      apply step_core_bind
      · exact mouse_stage_fist_core m2.2.1 g py ok m2.1 m2.2.2
      · intro m3 _
        exact mouse_stage_thumbs_core m3.2.1 g ok m3.1 m3.2.2

theorem rate_gated_core (table : Gesture → Option Effect)
    (s : ControllerState) (now : ℚ) (g : Gesture) (ok : Bool) :
    core_eq s (rate_gated_control table s now g ok).2.1 := by
  by_cases hc : now - s.last_action_time < s.cooldown_time
  · simp [rate_gated_control, hc, core_eq]
  · cases ht : table g with
    | none => simp [rate_gated_control, hc, ht, core_eq]
    | some e => cases ok <;> simp [rate_gated_control, hc, ht, core_eq]

theorem execute_action_core (s : ControllerState) (now : ℚ) (g : Gesture)
    (px py : ℚ) (cur : ℚ × ℚ) (ok : Bool) :
    core_eq s (execute_action s now g px py cur ok).2.1 := by
  cases hm : s.mode with
  | media => simpa [execute_action, hm, media_control] using
      rate_gated_core media_table s now g ok
  | mouse => simpa [execute_action, hm] using
      mouse_control_core s g px py cur ok
  | window => simpa [execute_action, hm, window_management] using
      rate_gated_core window_table s now g ok
  | presentation => simpa [execute_action, hm, presentation_control] using
      rate_gated_core presentation_table s now g ok

theorem detect_gesture_core (s : ControllerState)
    (openness rotation palm_x palm_y palm_z : ℚ)
    (landmarks : List (ℚ × ℚ × ℚ)) :
    core_eq s (detect_gesture s openness rotation palm_x palm_y palm_z
      landmarks).2 :=
  ⟨rfl, rfl, rfl⟩


theorem hold_restart_gesture_start_time (s1 : ControllerState) (now : ℚ)
    (g : Gesture) : (hold_restart s1 now g).gesture_start_time = now := rfl

theorem hold_restart_mode (s1 : ControllerState) (now : ℚ) (g : Gesture) :
    (hold_restart s1 now g).mode = s1.mode := rfl

theorem hold_restart_last_gesture (s1 : ControllerState) (now : ℚ)
    (g : Gesture) : (hold_restart s1 now g).last_gesture = g := rfl

/-- C5 (amended): per `process_frame` call, the hold timer restarts exactly
when the newly classified gesture is non-None and differs from
`last_gesture` (frames classified None neither restart the timer nor reset
`last_gesture`); an effect is dispatched only when the classified gesture is
non-None and `now - gesture_start_time` exceeds the hold duration (0.2 s in
Mouse mode, 0.3 s otherwise).  Recognition need not be continuous: a gesture
recurring after a None gap keeps the original start time. -/
theorem C5_hold_gate (s : ControllerState)
    (now openness rotation palm_x palm_y palm_z : ℚ)
    (landmarks : List (ℚ × ℚ × ℚ)) (cursor : ℚ × ℚ) (sinkOk : Bool) :
    ((process_frame s now openness rotation palm_x palm_y palm_z landmarks
        cursor sinkOk).2.2.1.gesture_start_time =
      if (process_frame s now openness rotation palm_x palm_y palm_z
            landmarks cursor sinkOk).1 ≠ Gesture.none ∧
          (process_frame s now openness rotation palm_x palm_y palm_z
            landmarks cursor sinkOk).1 ≠ s.last_gesture
        then now else s.gesture_start_time) ∧
    ((process_frame s now openness rotation palm_x palm_y palm_z landmarks
        cursor sinkOk).2.1 = true →
      (process_frame s now openness rotation palm_x palm_y palm_z landmarks
        cursor sinkOk).1 ≠ Gesture.none ∧
      now - (process_frame s now openness rotation palm_x palm_y palm_z
        landmarks cursor sinkOk).2.2.1.gesture_start_time >
        (if s.mode = ControlMode.mouse then (0.2 : ℚ) else 0.3)) := by
  have hdet := detect_gesture_core s openness rotation palm_x palm_y palm_z
    landmarks
  set d := detect_gesture s openness rotation palm_x palm_y palm_z landmarks
    with hd
  by_cases h1 : d.1 ≠ Gesture.none ∧ d.1 ≠ d.2.last_gesture
  · simp only [process_frame, ← hd, if_pos h1,
      hold_restart_gesture_start_time, hold_restart_mode]
    have hnof : ¬(d.1 ≠ Gesture.none ∧ now - now >
        (if d.2.mode = ControlMode.mouse then (0.2 : ℚ) else 0.3)) := by
      rintro ⟨-, hcon⟩
      rw [sub_self] at hcon
      split_ifs at hcon <;> linarith
    rw [if_neg hnof]
    have hcond : d.1 ≠ Gesture.none ∧ d.1 ≠ s.last_gesture := by
      rw [← hdet.2.2]; exact h1
    refine ⟨?_, fun hfalse => ?_⟩
    · rw [if_pos hcond]; rfl
    · simp at hfalse
  · simp only [process_frame, ← hd, if_neg h1]
    by_cases h2 : d.1 ≠ Gesture.none ∧ now - d.2.gesture_start_time >
        (if d.2.mode = ControlMode.mouse then (0.2 : ℚ) else 0.3)
    · rw [if_pos h2]
      have hcore := execute_action_core d.2 now d.1 palm_x palm_y cursor
        sinkOk
      have hcond : ¬(d.1 ≠ Gesture.none ∧ d.1 ≠ s.last_gesture) := by
        rw [← hdet.2.2]; exact h1
      refine ⟨?_, fun _ => ⟨h2.1, ?_⟩⟩
      · rw [if_neg hcond]
        exact hcore.2.1.trans hdet.2.1
      · have hb := h2.2
        rw [hdet.1] at hb
        rw [show (execute_action d.2 now d.1 palm_x palm_y cursor
          sinkOk).2.1.gesture_start_time = d.2.gesture_start_time from
          hcore.2.1]
        exact hb
    · rw [if_neg h2]
      have hcond : ¬(d.1 ≠ Gesture.none ∧ d.1 ≠ s.last_gesture) := by
        rw [← hdet.2.2]; exact h1
      refine ⟨?_, fun hfalse => ?_⟩
      · rw [if_neg hcond]
        exact hdet.2.1
      · simp at hfalse

set_option maxHeartbeats 1600000 in
theorem c5_s1_eval : c5_s1 =
    { base_state with
      current_gesture := Gesture.fist
      last_gesture := Gesture.fist
      gesture_start_time := 10
      last_rotation := Option.some 0
      last_palm_x := Option.some 320
      last_palm_y := Option.some 240
      last_palm_z := Option.some 0 } := by
  norm_num [c5_s1, process_frame, detect_gesture, detect_finger_states,
    detect_pinch, shape_gesture, depth_override, rotation_override,
    rot_diff_norm, swipe_override, update_tracking, is_swipe,
    execute_action, media_control, rate_gated_control, media_table,
    hold_restart, base_state, init_controller, fist_landmarks] <;>
    simp <;> norm_num

set_option maxHeartbeats 1600000 in
theorem c5_s2_eval : c5_s2 =
    { base_state with
      current_gesture := Gesture.none
      last_gesture := Gesture.fist
      gesture_start_time := 10
      last_rotation := Option.some 0
      last_palm_x := Option.some 320
      last_palm_y := Option.some 240
      last_palm_z := Option.some 0 } := by
  rw [show c5_s2 = (process_frame c5_s1 10.4 50 0 320 240 0 fist_landmarks
    (0, 0) true).2.2.1 from rfl, c5_s1_eval]
  norm_num [process_frame, detect_gesture, detect_finger_states,
    detect_pinch, shape_gesture, depth_override, rotation_override,
    rot_diff_norm, swipe_override, update_tracking, is_swipe,
    execute_action, media_control, rate_gated_control, media_table,
    hold_restart, base_state, init_controller, fist_landmarks]

set_option maxHeartbeats 1600000 in
/-- C5 (counterexample): in Media mode a Fist is recognized at t = 10 (the
hold timer starts), the frame at t = 10.4 classifies as None, and the frame
at t = 10.5 classifies as Fist again and dispatches an action — even though
the gesture was re-recognized only 0.1 s earlier (less than the 0.3 s hold)
after a None gap, i.e. it was not continuously recognized. -/
theorem C5_counterexample :
    (process_frame c5_s1 10.4 50 0 320 240 0 fist_landmarks (0, 0)
      true).1 = Gesture.none ∧
    (process_frame c5_s2 10.5 10 0 320 240 0 fist_landmarks (0, 0)
      true).1 = Gesture.fist ∧
    (process_frame c5_s2 10.5 10 0 320 240 0 fist_landmarks (0, 0)
      true).2.1 = true ∧
    ((10.5 : ℚ) - 10.4 < 0.3) := by
  refine ⟨?_, ?_, ?_, by norm_num⟩ <;>
    simp only [c5_s1_eval, c5_s2_eval] <;>
    norm_num [process_frame, detect_gesture, detect_finger_states,
      detect_pinch, shape_gesture, depth_override, rotation_override,
      rot_diff_norm, swipe_override, update_tracking, is_swipe,
      execute_action, media_control, rate_gated_control, media_table,
      hold_restart, base_state, init_controller, fist_landmarks] <;>
    simp <;> norm_num

set_option maxHeartbeats 1600000 in
/-- C5 witness: a Fist already held since t = 0 (Media mode) dispatched at
t = 1 satisfies the amended hold-gate conditions. -/
theorem C5_hold_gate_witness :
    (process_frame c5_held_state 1 10 0 320 240 0 fist_landmarks (0, 0)
        true).1 ≠ Gesture.none ∧
    1 - (process_frame c5_held_state 1 10 0 320 240 0 fist_landmarks (0, 0)
        true).2.2.1.gesture_start_time >
      (if c5_held_state.mode = ControlMode.mouse then (0.2 : ℚ) else 0.3) :=
  (C5_hold_gate c5_held_state 1 10 0 320 240 0 fist_landmarks (0, 0)
      true).2
    (by norm_num [process_frame, detect_gesture, detect_finger_states,
      detect_pinch, shape_gesture, depth_override, rotation_override,
      rot_diff_norm, swipe_override, update_tracking, is_swipe,
      execute_action, media_control, rate_gated_control, media_table,
      hold_restart, c5_held_state, base_state, init_controller,
      fist_landmarks] <;> simp <;> norm_num)
